import Mathlib

/-!
Shallow embedding of the multi-scale variable-batch sampler
(`data/sampler/variable_batch_sampler.py`) and of the corrupt-image handling
in the OpenCV ImageNet dataset
(`data/datasets/classification/imagenet_opencv_bitplane_fast.py`).

Machine integers are modelled as `Nat` (crop sizes, batch sizes and sample
indices are non-negative throughout the sources), and the Python floats
`min_scale_inc_factor` / `max_scale_inc_factor` are modelled as rationals.
-/

/-- Python `int(q)` on a rational: truncation toward zero. -/
def py_int (q : ℚ) : ℤ :=
  if 0 ≤ q then ⌊q⌋ else ⌈q⌉

/-- Python slice `idx[start:stop]` for `0 ≤ start ≤ stop`. -/
def py_slice (idx : List ℕ) (start stop : ℕ) : List ℕ :=
  (idx.drop start).take (stop - start)

/-- Modelled from the spec: `make_divisible` is imported by the missing helper
module `data/sampler/utils.py`; the sources only record (in the
`--sampler.vbs.check-scale` help text) that image scales should be divisible
by `check_scale_div_factor`, so a value `v` is rounded to the nearest multiple
of `d`, never below `d` itself. -/
def make_divisible (v d : ℕ) : ℕ :=
  max d ((v + d / 2) / d * d)

/-- Modelled from the spec: the candidate scale values between the minimum and
maximum crop bound used by `_image_batch_pairs` (from the missing module
`data/sampler/utils.py`): `max_scales` values stepped linearly from `lo`
to `hi`. -/
def linspace_vals (lo hi n : ℕ) : List ℕ :=
  if n ≤ 1 then [lo]
  else (List.range n).map (fun i => lo + (hi - lo) * i / (n - 1))

/-- Modelled from the spec: `_image_batch_pairs` lives in
`data/sampler/utils.py`, which is not part of the sources. Following the
spec's description ("computing which (height, width, batch_size) tuples are
valid under a GPU-memory-budget proxy", "computing scale-to-batch-size tuples
under a memory proportionality heuristic"), it pairs candidate heights and
widths between the min/max crop bounds (the base crop size is also included),
rounds each to a multiple of `check_scale_div_factor`, and assigns every
scale `(h, w)` the batch size
`batch_size_gpu0 * crop_size_h * crop_size_w / (h * w)`, so that the memory
proxy `batch * height * width` stays within the budget of the base
configuration. -/
def _image_batch_pairs (crop_size_h crop_size_w batch_size_gpu0 n_gpus max_scales
    check_scale_div_factor min_crop_size_w max_crop_size_w min_crop_size_h
    max_crop_size_h : ℕ) : List (ℕ × ℕ × ℕ) :=
  (((linspace_vals min_crop_size_h max_crop_size_h max_scales ++ [crop_size_h]).zip
      (linspace_vals min_crop_size_w max_crop_size_w max_scales ++ [crop_size_w])).map
    (fun p => (make_divisible p.1 check_scale_div_factor,
               make_divisible p.2 check_scale_div_factor))).map
    (fun p => (p.1, p.2, batch_size_gpu0 * crop_size_h * crop_size_w / (p.1 * p.2)))

/-- State of `VariableBatchSampler` (data-parallel variant). The fields
`batch_size_gpu0` and `n_gpus` are stored by the base class `BaseSamplerDP`. -/
structure Sampler where
  crop_size_w : ℕ
  crop_size_h : ℕ
  min_crop_size_w : ℕ
  max_crop_size_w : ℕ
  min_crop_size_h : ℕ
  max_crop_size_h : ℕ
  min_scale_inc_factor : ℚ
  max_scale_inc_factor : ℚ
  scale_ep_intervals : List ℕ
  max_img_scales : ℕ
  check_scale_div_factor : ℕ
  scale_inc : Bool
  batch_size_gpu0 : ℕ
  n_gpus : ℕ
  img_batch_tuples : List (ℕ × ℕ × ℕ)
deriving DecidableEq

/-- State of `VariableBatchSamplerDDP` (distributed data-parallel variant);
identical to `Sampler` except that the base class `BaseSamplerDDP` stores
`num_replicas` instead of `n_gpus`. -/
structure SamplerDDP where
  crop_size_w : ℕ
  crop_size_h : ℕ
  min_crop_size_w : ℕ
  max_crop_size_w : ℕ
  min_crop_size_h : ℕ
  max_crop_size_h : ℕ
  min_scale_inc_factor : ℚ
  max_scale_inc_factor : ℚ
  scale_ep_intervals : List ℕ
  max_img_scales : ℕ
  check_scale_div_factor : ℕ
  scale_inc : Bool
  batch_size_gpu0 : ℕ
  num_replicas : ℕ
  img_batch_tuples : List (ℕ × ℕ × ℕ)
deriving DecidableEq

/-- `VariableBatchSampler.__init__`: stores the options and computes
`img_batch_tuples` with `_image_batch_pairs` when training; otherwise the
single base tuple `(crop_size_h, crop_size_w, batch_size_gpu0)`. -/
def sampler_init (crop_size_w crop_size_h min_crop_size_w max_crop_size_w
    min_crop_size_h max_crop_size_h : ℕ) (scale_inc : Bool)
    (scale_ep_intervals : List ℕ) (min_scale_inc_factor max_scale_inc_factor : ℚ)
    (check_scale_div_factor max_img_scales batch_size_gpu0 n_gpus : ℕ)
    (is_training : Bool) : Sampler :=
  { crop_size_w := crop_size_w
    crop_size_h := crop_size_h
    min_crop_size_w := min_crop_size_w
    max_crop_size_w := max_crop_size_w
    min_crop_size_h := min_crop_size_h
    max_crop_size_h := max_crop_size_h
    min_scale_inc_factor := min_scale_inc_factor
    max_scale_inc_factor := max_scale_inc_factor
    scale_ep_intervals := scale_ep_intervals
    max_img_scales := max_img_scales
    check_scale_div_factor := check_scale_div_factor
    scale_inc := scale_inc
    batch_size_gpu0 := batch_size_gpu0
    n_gpus := n_gpus
    img_batch_tuples :=
      if is_training then
        _image_batch_pairs crop_size_h crop_size_w batch_size_gpu0 n_gpus
          max_img_scales check_scale_div_factor min_crop_size_w max_crop_size_w
          min_crop_size_h max_crop_size_h
      else [(crop_size_h, crop_size_w, batch_size_gpu0)] }

/-- `VariableBatchSamplerDDP.__init__`: same as `sampler_init`, with
`num_replicas` passed to `_image_batch_pairs` in place of `n_gpus`. -/
def sampler_init_ddp (crop_size_w crop_size_h min_crop_size_w max_crop_size_w
    min_crop_size_h max_crop_size_h : ℕ) (scale_inc : Bool)
    (scale_ep_intervals : List ℕ) (min_scale_inc_factor max_scale_inc_factor : ℚ)
    (check_scale_div_factor max_img_scales batch_size_gpu0 num_replicas : ℕ)
    (is_training : Bool) : SamplerDDP :=
  { crop_size_w := crop_size_w
    crop_size_h := crop_size_h
    min_crop_size_w := min_crop_size_w
    max_crop_size_w := max_crop_size_w
    min_crop_size_h := min_crop_size_h
    max_crop_size_h := max_crop_size_h
    min_scale_inc_factor := min_scale_inc_factor
    max_scale_inc_factor := max_scale_inc_factor
    scale_ep_intervals := scale_ep_intervals
    max_img_scales := max_img_scales
    check_scale_div_factor := check_scale_div_factor
    scale_inc := scale_inc
    batch_size_gpu0 := batch_size_gpu0
    num_replicas := num_replicas
    img_batch_tuples :=
      if is_training then
        _image_batch_pairs crop_size_h crop_size_w batch_size_gpu0 num_replicas
          max_img_scales check_scale_div_factor min_crop_size_w max_crop_size_w
          min_crop_size_h max_crop_size_h
      else [(crop_size_h, crop_size_w, batch_size_gpu0)] }

/-- The Python statement `b += int(b * f)` applied to a crop bound; faithful
for the non-negative factors the sampler is configured with. -/
def inc_bound (b : ℕ) (f : ℚ) : ℕ :=
  b + (py_int ((b : ℚ) * f)).toNat

/-- `VariableBatchSampler.update_scales(epoch)`: when `epoch` is one of
`scale_ep_intervals` and `scale_inc` is set, grow the four crop bounds by
their increment factors and recompute `img_batch_tuples` with
`_image_batch_pairs`; otherwise leave the sampler untouched. The
`is_master_node` logging has no effect on the state. -/
def update_scales (s : Sampler) (epoch : ℕ) : Sampler :=
  if epoch ∈ s.scale_ep_intervals ∧ s.scale_inc = true then
    { s with
      min_crop_size_w := inc_bound s.min_crop_size_w s.min_scale_inc_factor
      max_crop_size_w := inc_bound s.max_crop_size_w s.max_scale_inc_factor
      min_crop_size_h := inc_bound s.min_crop_size_h s.min_scale_inc_factor
      max_crop_size_h := inc_bound s.max_crop_size_h s.max_scale_inc_factor
      img_batch_tuples :=
        _image_batch_pairs s.crop_size_h s.crop_size_w s.batch_size_gpu0 s.n_gpus
          s.max_img_scales s.check_scale_div_factor
          (inc_bound s.min_crop_size_w s.min_scale_inc_factor)
          (inc_bound s.max_crop_size_w s.max_scale_inc_factor)
          (inc_bound s.min_crop_size_h s.min_scale_inc_factor)
          (inc_bound s.max_crop_size_h s.max_scale_inc_factor) }
  else s

/-- `VariableBatchSamplerDDP.update_scales(epoch)`: textually the same update,
with `num_replicas` passed to `_image_batch_pairs`. -/
def update_scales_ddp (s : SamplerDDP) (epoch : ℕ) : SamplerDDP :=
  if epoch ∈ s.scale_ep_intervals ∧ s.scale_inc = true then
    { s with
      min_crop_size_w := inc_bound s.min_crop_size_w s.min_scale_inc_factor
      max_crop_size_w := inc_bound s.max_crop_size_w s.max_scale_inc_factor
      min_crop_size_h := inc_bound s.min_crop_size_h s.min_scale_inc_factor
      max_crop_size_h := inc_bound s.max_crop_size_h s.max_scale_inc_factor
      img_batch_tuples :=
        _image_batch_pairs s.crop_size_h s.crop_size_w s.batch_size_gpu0
          s.num_replicas s.max_img_scales s.check_scale_div_factor
          (inc_bound s.min_crop_size_w s.min_scale_inc_factor)
          (inc_bound s.max_crop_size_w s.max_scale_inc_factor)
          (inc_bound s.min_crop_size_h s.min_scale_inc_factor)
          (inc_bound s.max_crop_size_h s.max_scale_inc_factor) }
  else s

/-- Map a DDP sampler state to the DP state holding the same data
(`num_replicas` plays the role of `n_gpus`). -/
def to_dp (s : SamplerDDP) : Sampler :=
  { crop_size_w := s.crop_size_w
    crop_size_h := s.crop_size_h
    min_crop_size_w := s.min_crop_size_w
    max_crop_size_w := s.max_crop_size_w
    min_crop_size_h := s.min_crop_size_h
    max_crop_size_h := s.max_crop_size_h
    min_scale_inc_factor := s.min_scale_inc_factor
    max_scale_inc_factor := s.max_scale_inc_factor
    scale_ep_intervals := s.scale_ep_intervals
    max_img_scales := s.max_img_scales
    check_scale_div_factor := s.check_scale_div_factor
    scale_inc := s.scale_inc
    batch_size_gpu0 := s.batch_size_gpu0
    n_gpus := s.num_replicas
    img_batch_tuples := s.img_batch_tuples }

/-- `random.choice(self.img_batch_tuples)` in step `k` of the loop, with the
randomness supplied by the oracle `σ`: the element of `tuples` at position
`σ k % tuples.length`. -/
def py_choice (tuples : List (ℕ × ℕ × ℕ)) (σ : ℕ → ℕ) (k : ℕ) : ℕ × ℕ × ℕ :=
  tuples.getD (σ k % tuples.length) (0, 0, 0)

/-- The id list of one loop iteration of `__iter__`:
`batch_ids = img_indices[start_index:end_index]` with
`end_index = min(start_index + batch_size, n_samples)`, padded with
`img_indices[:batch_size - n_batch_samples]` from the front of the index list
when the tail slice is short. -/
def batch_ids_at (idx : List ℕ) (start bs : ℕ) : List ℕ :=
  if (py_slice idx start (min (start + bs) idx.length)).length ≠ bs then
    py_slice idx start (min (start + bs) idx.length) ++
      idx.take (bs - (py_slice idx start (min (start + bs) idx.length)).length)
  else py_slice idx start (min (start + bs) idx.length)

/-- The `while start_index < n_samples` loop of
`VariableBatchSampler.__iter__`, as the list of yielded batches. A chosen
tuple with `batch_size = 0` makes the Python loop spin forever without ever
yielding again, so the remaining yield sequence is empty. -/
def iter_from (tuples : List (ℕ × ℕ × ℕ)) (idx : List ℕ) (σ : ℕ → ℕ)
    (k start : ℕ) : List (List (ℕ × ℕ × ℕ)) :=
  if _h : start < idx.length then
    if _hbs : (py_choice tuples σ k).2.2 = 0 then []
    else
      if 0 < (batch_ids_at idx start (py_choice tuples σ k).2.2).length then
        ((batch_ids_at idx start (py_choice tuples σ k).2.2).map
            (fun i => ((py_choice tuples σ k).1, (py_choice tuples σ k).2.1, i))) ::
          iter_from tuples idx σ (k + 1) (start + (py_choice tuples σ k).2.2)
      else iter_from tuples idx σ (k + 1) (start + (py_choice tuples σ k).2.2)
  else []
termination_by idx.length - start
decreasing_by all_goals omega

/-- `VariableBatchSampler.__iter__` over the enumerated index list
`img_indices` (produced by `self.get_indices()`), with choice oracle `σ`. -/
def iter_batches (tuples : List (ℕ × ℕ × ℕ)) (idx : List ℕ) (σ : ℕ → ℕ) :
    List (List (ℕ × ℕ × ℕ)) :=
  iter_from tuples idx σ 0 0

/-- The loop of `VariableBatchSamplerDDP.__iter__` over `indices_rank_i`;
the source differs from the DP loop only in variable names. -/
def iter_from_ddp (tuples : List (ℕ × ℕ × ℕ)) (idx : List ℕ) (σ : ℕ → ℕ)
    (k start : ℕ) : List (List (ℕ × ℕ × ℕ)) :=
  if _h : start < idx.length then
    if _hbs : (py_choice tuples σ k).2.2 = 0 then []
    else
      if 0 < (batch_ids_at idx start (py_choice tuples σ k).2.2).length then
        ((batch_ids_at idx start (py_choice tuples σ k).2.2).map
            (fun i => ((py_choice tuples σ k).1, (py_choice tuples σ k).2.1, i))) ::
          iter_from_ddp tuples idx σ (k + 1) (start + (py_choice tuples σ k).2.2)
      else iter_from_ddp tuples idx σ (k + 1) (start + (py_choice tuples σ k).2.2)
  else []
termination_by idx.length - start
decreasing_by all_goals omega

/-- `VariableBatchSamplerDDP.__iter__` over the rank-local index list. -/
def iter_batches_ddp (tuples : List (ℕ × ℕ × ℕ)) (idx : List ℕ) (σ : ℕ → ℕ) :
    List (List (ℕ × ℕ × ℕ)) :=
  iter_from_ddp tuples idx σ 0 0

/-- `start_index` at the beginning of loop iteration `k`: the sum of the
batch sizes of all previously chosen tuples. -/
def start_of (tuples : List (ℕ × ℕ × ℕ)) (σ : ℕ → ℕ) : ℕ → ℕ
  | 0 => 0
  | k + 1 => start_of tuples σ k + (py_choice tuples σ k).2.2

/-- The batch produced by loop iteration `k` of `__iter__`: the contiguous
slice of the index list at `start_of`, padded from the front when short, each
id tagged with the chosen tuple's crop height and width. -/
def batch_at (tuples : List (ℕ × ℕ × ℕ)) (idx : List ℕ) (σ : ℕ → ℕ) (k : ℕ) :
    List (ℕ × ℕ × ℕ) :=
  (batch_ids_at idx (start_of tuples σ k) (py_choice tuples σ k).2.2).map
    (fun i => ((py_choice tuples σ k).1, (py_choice tuples σ k).2.1, i))

/-- An image as seen by `ImagenetOpenCVDataset.__getitem__`: either the
decoded content of a file or the `np.zeros((crop_h, crop_w, 3))` placeholder
substituted for a corrupt image. -/
inductive ImgData where
  | decoded : String → ImgData
  | zeros : ℕ → ℕ → ImgData
deriving DecidableEq

/-- The dictionary returned by `ImagenetOpenCVDataset.__getitem__`. -/
structure DataRecord where
  image : ImgData
  label : ℕ
  sample_id : ℕ
deriving DecidableEq

/-- `ImagenetOpenCVDataset.__getitem__((crop_h, crop_w, img_index))`, with
`read_image_opencv` and the composed transform (`_training_transforms` or
`_validation_transforms`, both out-of-scope glue) passed as oracles. Returns
the updated `self.samples` list together with the returned data dictionary:
on decode failure the sample is deleted from `samples` and an all-zeros
placeholder image is used in its place. -/
def getitem (read_image_opencv : String → Option ImgData)
    (transform_fn : ImgData → ImgData) (samples : List (String × ℕ))
    (tup : ℕ × ℕ × ℕ) : List (String × ℕ) × DataRecord :=
  match read_image_opencv (samples.getD tup.2.2 ("", 0)).1 with
  | some input_img =>
      (samples,
       { image := transform_fn input_img
         label := (samples.getD tup.2.2 ("", 0)).2
         sample_id := tup.2.2 })
  | none =>
      (samples.eraseIdx tup.2.2,
       { image := transform_fn (ImgData.zeros tup.1 tup.2.1)
         label := (samples.getD tup.2.2 ("", 0)).2
         sample_id := tup.2.2 })

/-! ## Helper lemmas -/

lemma py_choice_mem {tuples : List (ℕ × ℕ × ℕ)} (σ : ℕ → ℕ) (k : ℕ)
    (h : tuples ≠ []) : py_choice tuples σ k ∈ tuples := by
  have hlen : 0 < tuples.length := List.length_pos.mpr h
  have hlt : σ k % tuples.length < tuples.length := Nat.mod_lt _ hlen
  unfold py_choice
  rw [List.getD_eq_getElem _ _ hlt]
  exact List.getElem_mem hlt

lemma image_batch_pairs_bsz {ch cw bs0 g ms dv mw Mw mh Mh h w b : ℕ}
    (hmem : (h, w, b) ∈ _image_batch_pairs ch cw bs0 g ms dv mw Mw mh Mh) :
    b = bs0 * ch * cw / (h * w) := by
  unfold _image_batch_pairs at hmem
  rcases List.mem_map.mp hmem with ⟨p, _, heq⟩
  simp only [Prod.mk.injEq] at heq
  obtain ⟨e1, e2, e3⟩ := heq
  subst e1; subst e2
  exact e3.symm

/-! ## C1 -/

/-- C1: in training mode, every tuple `(h, w, b)` stored in the sampler's
`img_batch_tuples` (for both `VariableBatchSampler` and
`VariableBatchSamplerDDP`) respects the memory proportionality heuristic:
the memory proxy `b * h * w` stays within the base budget
`batch_size_gpu0 * crop_size_h * crop_size_w`. -/
theorem vbs_tuples_within_budget :
    (∀ (cw ch mw Mw mh Mh : ℕ) (si : Bool) (ints : List ℕ) (mf Mf : ℚ)
       (dv ms bs0 g h w b : ℕ),
        (h, w, b) ∈ (sampler_init cw ch mw Mw mh Mh si ints mf Mf dv ms
            bs0 g true).img_batch_tuples →
        b * h * w ≤ bs0 * ch * cw) ∧
    (∀ (cw ch mw Mw mh Mh : ℕ) (si : Bool) (ints : List ℕ) (mf Mf : ℚ)
       (dv ms bs0 g h w b : ℕ),
        (h, w, b) ∈ (sampler_init_ddp cw ch mw Mw mh Mh si ints mf Mf dv ms
            bs0 g true).img_batch_tuples →
        b * h * w ≤ bs0 * ch * cw) := by
  constructor <;>
  · intro cw ch mw Mw mh Mh si ints mf Mf dv ms bs0 g h w b hmem
    first
      | (have hmem' : (h, w, b) ∈ _image_batch_pairs ch cw bs0 g ms dv mw Mw mh Mh := by
          simpa [sampler_init, sampler_init_ddp] using hmem)
    have hb : b = bs0 * ch * cw / (h * w) := image_batch_pairs_bsz hmem'
    rw [hb, mul_assoc]
    exact Nat.div_mul_le_self _ _

/-- Witness for C1: a concrete training-mode sampler contains the tuple
`(160, 160, 7)` and `7 * 160 * 160` is within the budget `4 * 224 * 224`. -/
theorem vbs_tuples_within_budget_witness :
    ((160, 160, 7) ∈ (sampler_init 224 224 160 320 160 320 true [40] 1 1 32 5
        4 1 true).img_batch_tuples) ∧ 7 * 160 * 160 ≤ 4 * 224 * 224 :=
  ⟨by decide,
   vbs_tuples_within_budget.1 224 224 160 320 160 320 true [40] 1 1 32 5 4 1
     160 160 7 (by decide)⟩

/-! ## C2 -/

/-- C2 (counterexample): on a dataset whose only image fails to decode, the
call `__getitem__((2, 3, 0))` does delete the sample, but it still returns a
data item for the corrupt sample — an all-zeros placeholder image together
with the corrupt sample's label `7` and `sample_id` `0` — refuting the claim
that no data item derived from the corrupt image is returned to the caller. -/
theorem getitem_corrupt_counterexample :
    (fun _ => (none : Option ImgData)) "a" = none ∧
    (getitem (fun _ => none) id [("a", 7)] (2, 3, 0)).1 = [] ∧
    (getitem (fun _ => none) id [("a", 7)] (2, 3, 0)).2 =
      { image := ImgData.zeros 2 3, label := 7, sample_id := 0 } :=
  ⟨rfl, rfl, rfl⟩

/-- C2 (amended): whenever `read_image_opencv` fails on the sample at
`img_index`, the sample is removed from the sample list (so `__len__`
decreases by one), and the call returns a substitute data item whose image is
the transformed all-zeros placeholder but which still carries the corrupt
sample's original label and `sample_id`. -/
theorem getitem_corrupt_removes_and_returns_placeholder :
    ∀ (dec : String → Option ImgData) (tfm : ImgData → ImgData)
      (samples : List (String × ℕ)) (crop_h crop_w i : ℕ),
      i < samples.length →
      dec (samples.getD i ("", 0)).1 = none →
      (getitem dec tfm samples (crop_h, crop_w, i)).1 = samples.eraseIdx i ∧
      (getitem dec tfm samples (crop_h, crop_w, i)).1.length + 1 = samples.length ∧
      (getitem dec tfm samples (crop_h, crop_w, i)).2 =
        { image := tfm (ImgData.zeros crop_h crop_w),
          label := (samples.getD i ("", 0)).2, sample_id := i } := by
  intro dec tfm samples crop_h crop_w i hi hdec
  have key : getitem dec tfm samples (crop_h, crop_w, i)
      = (samples.eraseIdx i,
         { image := tfm (ImgData.zeros crop_h crop_w),
           label := (samples.getD i ("", 0)).2, sample_id := i }) := by
    have hdec' : dec (samples[i]?.getD ("", 0)).1 = none := by
      rw [← List.getD_eq_getElem?_getD]; exact hdec
    unfold getitem
    simp [hdec']
  refine ⟨by rw [key], ?_, by rw [key]⟩
  rw [key]
  exact List.length_eraseIdx_add_one hi

/-- Witness for C2's amended theorem at the concrete corrupt dataset. -/
theorem getitem_corrupt_removes_witness :
    (0 < ([("a", 7)] : List (String × ℕ)).length) ∧
    ((fun _ => (none : Option ImgData)) (([("a", 7)] : List (String × ℕ)).getD 0 ("", 0)).1 = none) ∧
    ((getitem (fun _ => none) id [("a", 7)] (2, 3, 0)).1 = [("a", 7)].eraseIdx 0 ∧
     (getitem (fun _ => none) id [("a", 7)] (2, 3, 0)).1.length + 1 = ([("a", 7)] : List (String × ℕ)).length ∧
     (getitem (fun _ => none) id [("a", 7)] (2, 3, 0)).2 =
       { image := id (ImgData.zeros 2 3),
         label := (([("a", 7)] : List (String × ℕ)).getD 0 ("", 0)).2, sample_id := 0 }) :=
  ⟨by decide, rfl,
   getitem_corrupt_removes_and_returns_placeholder (fun _ => none) id [("a", 7)]
     2 3 0 (by decide) rfl⟩

/-! ## C3 -/

/-- C3: `update_scales(epoch)` on either sampler is the identity on the whole
state whenever the trigger condition — `epoch` a member of
`scale_ep_intervals` and `scale_inc` enabled — does not hold. -/
theorem update_scales_frame :
    (∀ (s : Sampler) (epoch : ℕ),
        ¬ (epoch ∈ s.scale_ep_intervals ∧ s.scale_inc = true) →
        update_scales s epoch = s) ∧
    (∀ (s : SamplerDDP) (epoch : ℕ),
        ¬ (epoch ∈ s.scale_ep_intervals ∧ s.scale_inc = true) →
        update_scales_ddp s epoch = s) :=
  ⟨fun s epoch h => by unfold update_scales; rw [if_neg h],
   fun s epoch h => by unfold update_scales_ddp; rw [if_neg h]⟩

/-- Witness for C3: epoch 5 is not in the interval list `[40]`, so the update
leaves a concrete sampler unchanged. -/
theorem update_scales_frame_witness :
    ¬ (5 ∈ (sampler_init 224 224 160 320 160 320 true [40] 1 1 32 5 4 1
        false).scale_ep_intervals ∧
       (sampler_init 224 224 160 320 160 320 true [40] 1 1 32 5 4 1
        false).scale_inc = true) ∧
    update_scales (sampler_init 224 224 160 320 160 320 true [40] 1 1 32 5 4 1
        false) 5 =
      sampler_init 224 224 160 320 160 320 true [40] 1 1 32 5 4 1 false :=
  ⟨by decide, update_scales_frame.1 _ 5 (by decide)⟩

/-! ## C4 -/

/-- C4: when `update_scales(epoch)` fires, each crop bound grows by the rule
`b := b + int(b * f)` — the `min` bounds with `min_scale_inc_factor`, the
`max` bounds with `max_scale_inc_factor` — and `img_batch_tuples` is
recomputed by `_image_batch_pairs` from the updated bounds, while the base
crop sizes and the per-GPU batch size are passed unchanged. -/
theorem update_scales_fire_rule :
    (∀ (s : Sampler) (epoch : ℕ),
        epoch ∈ s.scale_ep_intervals → s.scale_inc = true →
        (update_scales s epoch).min_crop_size_w
            = s.min_crop_size_w
              + (py_int ((s.min_crop_size_w : ℚ) * s.min_scale_inc_factor)).toNat ∧
        (update_scales s epoch).max_crop_size_w
            = s.max_crop_size_w
              + (py_int ((s.max_crop_size_w : ℚ) * s.max_scale_inc_factor)).toNat ∧
        (update_scales s epoch).min_crop_size_h
            = s.min_crop_size_h
              + (py_int ((s.min_crop_size_h : ℚ) * s.min_scale_inc_factor)).toNat ∧
        (update_scales s epoch).max_crop_size_h
            = s.max_crop_size_h
              + (py_int ((s.max_crop_size_h : ℚ) * s.max_scale_inc_factor)).toNat ∧
        (update_scales s epoch).img_batch_tuples
            = _image_batch_pairs s.crop_size_h s.crop_size_w s.batch_size_gpu0
                s.n_gpus s.max_img_scales s.check_scale_div_factor
                (update_scales s epoch).min_crop_size_w
                (update_scales s epoch).max_crop_size_w
                (update_scales s epoch).min_crop_size_h
                (update_scales s epoch).max_crop_size_h ∧
        (update_scales s epoch).crop_size_h = s.crop_size_h ∧
        (update_scales s epoch).crop_size_w = s.crop_size_w ∧
        (update_scales s epoch).batch_size_gpu0 = s.batch_size_gpu0) ∧
    (∀ (s : SamplerDDP) (epoch : ℕ),
        epoch ∈ s.scale_ep_intervals → s.scale_inc = true →
        (update_scales_ddp s epoch).min_crop_size_w
            = s.min_crop_size_w
              + (py_int ((s.min_crop_size_w : ℚ) * s.min_scale_inc_factor)).toNat ∧
        (update_scales_ddp s epoch).max_crop_size_w
            = s.max_crop_size_w
              + (py_int ((s.max_crop_size_w : ℚ) * s.max_scale_inc_factor)).toNat ∧
        (update_scales_ddp s epoch).min_crop_size_h
            = s.min_crop_size_h
              + (py_int ((s.min_crop_size_h : ℚ) * s.min_scale_inc_factor)).toNat ∧
        (update_scales_ddp s epoch).max_crop_size_h
            = s.max_crop_size_h
              + (py_int ((s.max_crop_size_h : ℚ) * s.max_scale_inc_factor)).toNat ∧
        (update_scales_ddp s epoch).img_batch_tuples
            = _image_batch_pairs s.crop_size_h s.crop_size_w s.batch_size_gpu0
                s.num_replicas s.max_img_scales s.check_scale_div_factor
                (update_scales_ddp s epoch).min_crop_size_w
                (update_scales_ddp s epoch).max_crop_size_w
                (update_scales_ddp s epoch).min_crop_size_h
                (update_scales_ddp s epoch).max_crop_size_h ∧
        (update_scales_ddp s epoch).crop_size_h = s.crop_size_h ∧
        (update_scales_ddp s epoch).crop_size_w = s.crop_size_w ∧
        (update_scales_ddp s epoch).batch_size_gpu0 = s.batch_size_gpu0) := by
  constructor <;>
  · intro s epoch h1 h2
    first
      | unfold update_scales
      | unfold update_scales_ddp
    rw [if_pos ⟨h1, h2⟩]
    exact ⟨rfl, rfl, rfl, rfl, rfl, rfl, rfl, rfl⟩

/-- Witness for C4 at epoch 40 on a concrete training sampler. -/
theorem update_scales_fire_rule_witness :
    (40 ∈ (sampler_init 224 224 160 320 160 320 true [40] 1 1 32 5 4 1
        true).scale_ep_intervals) ∧
    ((sampler_init 224 224 160 320 160 320 true [40] 1 1 32 5 4 1
        true).scale_inc = true) ∧
    ((update_scales (sampler_init 224 224 160 320 160 320 true [40] 1 1 32 5 4
        1 true) 40).crop_size_h
      = (sampler_init 224 224 160 320 160 320 true [40] 1 1 32 5 4 1
        true).crop_size_h) :=
  ⟨by decide, by decide,
   ((update_scales_fire_rule.1 (sampler_init 224 224 160 320 160 320 true [40]
       1 1 32 5 4 1 true) 40 (by decide) (by decide)).2.2.2.2.2.1)⟩

/-! ## Iterator lemmas -/

lemma py_slice_length (idx : List ℕ) (start stop : ℕ) :
    (py_slice idx start stop).length = min (stop - start) (idx.length - start) := by
  simp [py_slice]

lemma batch_ids_at_pos {idx : List ℕ} {start bs : ℕ} (h : start < idx.length)
    (hbs : 0 < bs) : 0 < (batch_ids_at idx start bs).length := by
  have h0 := py_slice_length idx start (min (start + bs) idx.length)
  unfold batch_ids_at
  by_cases hc : (py_slice idx start (min (start + bs) idx.length)).length ≠ bs
  · rw [if_pos hc, List.length_append]
    omega
  · rw [if_neg hc]
    omega

lemma batch_ids_at_length {idx : List ℕ} {start bs : ℕ} (h : start < idx.length)
    (hbs : bs ≤ idx.length) : (batch_ids_at idx start bs).length = bs := by
  have h0 := py_slice_length idx start (min (start + bs) idx.length)
  unfold batch_ids_at
  by_cases hc : (py_slice idx start (min (start + bs) idx.length)).length ≠ bs
  · rw [if_pos hc, List.length_append, List.length_take]
    omega
  · rw [if_neg hc]
    omega

lemma mem_iter_from {tuples : List (ℕ × ℕ × ℕ)} {idx : List ℕ} {σ : ℕ → ℕ} :
    ∀ (m k : ℕ), idx.length - start_of tuples σ k ≤ m →
      ∀ b ∈ iter_from tuples idx σ k (start_of tuples σ k),
        ∃ j, k ≤ j ∧ start_of tuples σ j < idx.length ∧
          0 < (py_choice tuples σ j).2.2 ∧ b = batch_at tuples idx σ j := by
  intro m
  induction m with
  | zero =>
    intro k hm b hb
    rw [iter_from.eq_def, dif_neg (by omega)] at hb
    exact absurd hb (List.not_mem_nil b)
  | succ m ih =>
    intro k hm b hb
    rw [iter_from.eq_def] at hb
    by_cases h1 : start_of tuples σ k < idx.length
    · rw [dif_pos h1] at hb
      by_cases h2 : (py_choice tuples σ k).2.2 = 0
      · rw [dif_pos h2] at hb
        exact absurd hb (List.not_mem_nil b)
      · rw [dif_neg h2] at hb
        have hnext : start_of tuples σ (k + 1)
            = start_of tuples σ k + (py_choice tuples σ k).2.2 := rfl
        have hm' : idx.length - start_of tuples σ (k + 1) ≤ m := by
          rw [hnext]; omega
        by_cases h3 : 0 < (batch_ids_at idx (start_of tuples σ k)
            (py_choice tuples σ k).2.2).length
        · rw [if_pos h3] at hb
          rcases List.mem_cons.mp hb with hb1 | hb2
          · exact ⟨k, le_refl k, h1, Nat.pos_of_ne_zero h2, by rw [hb1]; rfl⟩
          · have hb2' : b ∈ iter_from tuples idx σ (k + 1)
                (start_of tuples σ (k + 1)) := by rw [hnext]; exact hb2
            obtain ⟨j, hj1, hj2, hj3, hj4⟩ := ih (k + 1) hm' b hb2'
            exact ⟨j, by omega, hj2, hj3, hj4⟩
        · rw [if_neg h3] at hb
          have hb2' : b ∈ iter_from tuples idx σ (k + 1)
              (start_of tuples σ (k + 1)) := by rw [hnext]; exact hb
          obtain ⟨j, hj1, hj2, hj3, hj4⟩ := ih (k + 1) hm' b hb2'
          exact ⟨j, by omega, hj2, hj3, hj4⟩
    · rw [dif_neg h1] at hb
      exact absurd hb (List.not_mem_nil b)

lemma iter_from_ddp_eq_aux {tuples : List (ℕ × ℕ × ℕ)} {idx : List ℕ}
    {σ : ℕ → ℕ} : ∀ (m k start : ℕ), idx.length - start ≤ m →
      iter_from_ddp tuples idx σ k start = iter_from tuples idx σ k start := by
  intro m
  induction m with
  | zero =>
    intro k start hm
    rw [iter_from.eq_def, iter_from_ddp.eq_def, dif_neg (by omega),
      dif_neg (by omega)]
  | succ m ih =>
    intro k start hm
    rw [iter_from.eq_def, iter_from_ddp.eq_def]
    by_cases h1 : start < idx.length
    · rw [dif_pos h1, dif_pos h1]
      by_cases h2 : (py_choice tuples σ k).2.2 = 0
      · rw [dif_pos h2, dif_pos h2]
      · rw [dif_neg h2, dif_neg h2,
          ih (k + 1) (start + (py_choice tuples σ k).2.2) (by omega)]
    · rw [dif_neg h1, dif_neg h1]

lemma iter_batches_ddp_eq (tuples : List (ℕ × ℕ × ℕ)) (idx : List ℕ)
    (σ : ℕ → ℕ) : iter_batches_ddp tuples idx σ = iter_batches tuples idx σ :=
  iter_from_ddp_eq_aux idx.length 0 0 (by omega)

/-! ## C5 -/

/-- C5: every batch yielded by `__iter__` comes from the stages
"enumerate indices, pick scale, yield batch": it is produced at some loop
step `k` whose single tuple is drawn from `img_batch_tuples`, all its
elements carry that tuple's crop height and width, its id list is the
contiguous slice of the index list at position `start_of k` (front-padded
when short), and the next step's slice begins where this one's batch size
ends. -/
theorem iter_batches_stages :
    ∀ (tuples : List (ℕ × ℕ × ℕ)) (idx : List ℕ) (σ : ℕ → ℕ),
      tuples ≠ [] →
      ∀ b ∈ iter_batches tuples idx σ,
        ∃ k, py_choice tuples σ k ∈ tuples ∧
          start_of tuples σ (k + 1)
            = start_of tuples σ k + (py_choice tuples σ k).2.2 ∧
          b = (batch_ids_at idx (start_of tuples σ k)
                (py_choice tuples σ k).2.2).map
              (fun i => ((py_choice tuples σ k).1, (py_choice tuples σ k).2.1, i)) ∧
          ∀ x ∈ b, x.1 = (py_choice tuples σ k).1 ∧
            x.2.1 = (py_choice tuples σ k).2.1 := by
  intro tuples idx σ htup b hb
  obtain ⟨j, _, _, _, hj4⟩ := mem_iter_from idx.length 0 (by omega) b hb
  refine ⟨j, py_choice_mem σ j htup, rfl, hj4, ?_⟩
  intro x hx
  rw [hj4] at hx
  rcases List.mem_map.mp hx with ⟨i, _, hix⟩
  rw [← hix]
  exact ⟨rfl, rfl⟩

/-- Witness for C5 on a concrete sampler run. -/
theorem iter_batches_stages_witness :
    ([((2 : ℕ), (2 : ℕ), (2 : ℕ))] ≠ []) ∧
    (∀ b ∈ iter_batches [(2, 2, 2)] [10, 20, 30] (fun _ => 0),
      ∃ k, py_choice [(2, 2, 2)] (fun _ => 0) k ∈ [(2, 2, 2)] ∧
        start_of [(2, 2, 2)] (fun _ => 0) (k + 1)
          = start_of [(2, 2, 2)] (fun _ => 0) k
            + (py_choice [(2, 2, 2)] (fun _ => 0) k).2.2 ∧
        b = (batch_ids_at [10, 20, 30]
              (start_of [(2, 2, 2)] (fun _ => 0) k)
              (py_choice [(2, 2, 2)] (fun _ => 0) k).2.2).map
            (fun i => ((py_choice [(2, 2, 2)] (fun _ => 0) k).1,
                       (py_choice [(2, 2, 2)] (fun _ => 0) k).2.1, i)) ∧
        ∀ x ∈ b, x.1 = (py_choice [(2, 2, 2)] (fun _ => 0) k).1 ∧
          x.2.1 = (py_choice [(2, 2, 2)] (fun _ => 0) k).2.1) :=
  ⟨by decide, iter_batches_stages [(2, 2, 2)] [10, 20, 30] (fun _ => 0) (by decide)⟩

/-! ## C7 -/

/-- C7: on a non-empty index list at least as long as every batch size in
`img_batch_tuples`, every batch yielded by either sampler's `__iter__` has
exactly the chosen tuple's batch size — short tail slices are padded with
indices from the front of the index list, as recorded in `batch_ids_at`. -/
theorem iter_batches_len :
    ∀ (tuples : List (ℕ × ℕ × ℕ)) (idx : List ℕ) (σ : ℕ → ℕ),
      idx ≠ [] → tuples ≠ [] →
      (∀ t ∈ tuples, t.2.2 ≤ idx.length) →
      (∀ b ∈ iter_batches tuples idx σ,
        ∃ k, py_choice tuples σ k ∈ tuples ∧
          b.length = (py_choice tuples σ k).2.2 ∧ b = batch_at tuples idx σ k) ∧
      (∀ b ∈ iter_batches_ddp tuples idx σ,
        ∃ k, py_choice tuples σ k ∈ tuples ∧
          b.length = (py_choice tuples σ k).2.2 ∧ b = batch_at tuples idx σ k) := by
  intro tuples idx σ hne htup hlen
  have main : ∀ b ∈ iter_batches tuples idx σ,
      ∃ k, py_choice tuples σ k ∈ tuples ∧
        b.length = (py_choice tuples σ k).2.2 ∧ b = batch_at tuples idx σ k := by
    intro b hb
    obtain ⟨j, _, hj2, hj3, hj4⟩ := mem_iter_from idx.length 0 (by omega) b hb
    refine ⟨j, py_choice_mem σ j htup, ?_, hj4⟩
    rw [hj4]
    unfold batch_at
    rw [List.length_map]
    exact batch_ids_at_length hj2 (hlen _ (py_choice_mem σ j htup))
  exact ⟨main, by rw [iter_batches_ddp_eq]; exact main⟩

/-- Witness for C7 on a concrete sampler run. -/
theorem iter_batches_len_witness :
    (([(10 : ℕ), 20, 30] : List ℕ) ≠ []) ∧
    ([((2 : ℕ), (2 : ℕ), (2 : ℕ))] ≠ []) ∧
    (∀ t ∈ [((2 : ℕ), (2 : ℕ), (2 : ℕ))], t.2.2 ≤ ([(10 : ℕ), 20, 30] : List ℕ).length) ∧
    ((∀ b ∈ iter_batches [(2, 2, 2)] [10, 20, 30] (fun _ => 0),
        ∃ k, py_choice [(2, 2, 2)] (fun _ => 0) k ∈ [(2, 2, 2)] ∧
          b.length = (py_choice [(2, 2, 2)] (fun _ => 0) k).2.2 ∧
          b = batch_at [(2, 2, 2)] [10, 20, 30] (fun _ => 0) k) ∧
     (∀ b ∈ iter_batches_ddp [(2, 2, 2)] [10, 20, 30] (fun _ => 0),
        ∃ k, py_choice [(2, 2, 2)] (fun _ => 0) k ∈ [(2, 2, 2)] ∧
          b.length = (py_choice [(2, 2, 2)] (fun _ => 0) k).2.2 ∧
          b = batch_at [(2, 2, 2)] [10, 20, 30] (fun _ => 0) k)) :=
  ⟨by decide, by decide, by decide,
   iter_batches_len [(2, 2, 2)] [10, 20, 30] (fun _ => 0) (by decide) (by decide)
     (by decide)⟩

/-! ## C6 -/

/-- C6: with `is_training` false, both samplers store the single tuple
`(crop_size_h, crop_size_w, batch_size_gpu0)` in `img_batch_tuples`, so every
batch yielded by `__iter__` in validation/evaluation mode carries the base
crop size, and the base per-GPU batch size is the only one ever chosen. -/
theorem validation_single_base_tuple :
    ∀ (cw ch mw Mw mh Mh : ℕ) (si : Bool) (ints : List ℕ) (mf Mf : ℚ)
      (dv ms bs0 g : ℕ) (idx : List ℕ) (σ : ℕ → ℕ),
      (sampler_init cw ch mw Mw mh Mh si ints mf Mf dv ms bs0 g
          false).img_batch_tuples = [(ch, cw, bs0)] ∧
      (sampler_init_ddp cw ch mw Mw mh Mh si ints mf Mf dv ms bs0 g
          false).img_batch_tuples = [(ch, cw, bs0)] ∧
      (∀ k, py_choice (sampler_init cw ch mw Mw mh Mh si ints mf Mf dv ms bs0 g
          false).img_batch_tuples σ k = (ch, cw, bs0)) ∧
      ∀ b ∈ iter_batches (sampler_init cw ch mw Mw mh Mh si ints mf Mf dv ms
          bs0 g false).img_batch_tuples idx σ,
        ∀ x ∈ b, x.1 = ch ∧ x.2.1 = cw := by
  intro cw ch mw Mw mh Mh si ints mf Mf dv ms bs0 g idx σ
  have hchoice : ∀ k, py_choice ([(ch, cw, bs0)] : List (ℕ × ℕ × ℕ)) σ k
      = (ch, cw, bs0) := by
    intro k
    unfold py_choice
    simp [Nat.mod_one]
  refine ⟨rfl, rfl, hchoice, ?_⟩
  intro b hb x hx
  have hb' : b ∈ iter_batches [(ch, cw, bs0)] idx σ := hb
  obtain ⟨k, _, _, _, hj4⟩ := mem_iter_from idx.length 0 (by omega) b hb'
  rw [hj4] at hx
  unfold batch_at at hx
  rcases List.mem_map.mp hx with ⟨i, _, hix⟩
  rw [← hix, hchoice k]
  exact ⟨rfl, rfl⟩

/-- Witness for C6 at a concrete validation-mode sampler. -/
theorem validation_single_base_tuple_witness :
    (sampler_init 224 224 160 320 160 320 true [40] 1 1 32 5 4 1
        false).img_batch_tuples = [(224, 224, 4)] ∧
    (sampler_init_ddp 224 224 160 320 160 320 true [40] 1 1 32 5 4 1
        false).img_batch_tuples = [(224, 224, 4)] ∧
    (∀ k, py_choice (sampler_init 224 224 160 320 160 320 true [40] 1 1 32 5 4
        1 false).img_batch_tuples (fun _ => 0) k = (224, 224, 4)) ∧
    ∀ b ∈ iter_batches (sampler_init 224 224 160 320 160 320 true [40] 1 1 32
        5 4 1 false).img_batch_tuples [7, 8, 9] (fun _ => 0),
      ∀ x ∈ b, x.1 = 224 ∧ x.2.1 = 224 :=
  validation_single_base_tuple 224 224 160 320 160 320 true [40] 1 1 32 5 4 1
    [7, 8, 9] (fun _ => 0)

/-! ## C8 -/

lemma mem_py_slice {idx : List ℕ} {start stop pos : ℕ} (h1 : start ≤ pos)
    (h2 : pos < stop) (h3 : pos < idx.length) :
    idx[pos] ∈ py_slice idx start stop := by
  unfold py_slice
  have hlt : pos - start < ((idx.drop start).take (stop - start)).length := by
    simp [List.length_take, List.length_drop]
    omega
  have heq : ((idx.drop start).take (stop - start))[pos - start]
      = idx[pos] := by
    rw [List.getElem_take _, List.getElem_drop _]
    congr 1
    omega
  rw [← heq]
  exact List.getElem_mem hlt

lemma mem_batch_ids_at {idx : List ℕ} {start bs pos : ℕ} (h1 : start ≤ pos)
    (h2 : pos < start + bs) (h3 : pos < idx.length) :
    idx[pos] ∈ batch_ids_at idx start bs := by
  have hs : idx[pos] ∈ py_slice idx start (min (start + bs) idx.length) :=
    mem_py_slice h1 (by omega) h3
  unfold batch_ids_at
  by_cases hc : (py_slice idx start (min (start + bs) idx.length)).length ≠ bs
  · rw [if_pos hc]
    exact List.mem_append_left _ hs
  · rw [if_neg hc]
    exact hs

lemma cover_aux {tuples : List (ℕ × ℕ × ℕ)} {idx : List ℕ} {σ : ℕ → ℕ}
    (htup : tuples ≠ []) (hpos : ∀ t ∈ tuples, 0 < t.2.2) :
    ∀ (m k start pos : ℕ) (hp : pos < idx.length), start ≤ pos →
      idx.length - start ≤ m →
      ∃ b ∈ iter_from tuples idx σ k start, ∃ x ∈ b, x.2.2 = idx[pos] := by
  intro m
  induction m with
  | zero =>
    intro k start pos hp hsp hm
    omega
  | succ m ih =>
    intro k start pos hp hsp hm
    have hstart : start < idx.length := by omega
    have hbs : 0 < (py_choice tuples σ k).2.2 := hpos _ (py_choice_mem σ k htup)
    rw [iter_from.eq_def, dif_pos hstart, dif_neg (by omega)]
    have hidspos : 0 < (batch_ids_at idx start (py_choice tuples σ k).2.2).length :=
      batch_ids_at_pos hstart hbs
    rw [if_pos hidspos]
    by_cases hcase : pos < start + (py_choice tuples σ k).2.2
    · refine ⟨_, List.mem_cons_self _ _,
        ((py_choice tuples σ k).1, (py_choice tuples σ k).2.1, idx[pos]),
        List.mem_map.mpr ⟨idx[pos], mem_batch_ids_at hsp hcase hp, rfl⟩, rfl⟩
    · obtain ⟨b, hbmem, hx⟩ := ih (k + 1) (start + (py_choice tuples σ k).2.2)
        pos hp (by omega) (by omega)
      exact ⟨b, List.mem_cons_of_mem _ hbmem, hx⟩

/-- C8: in one full pass of `__iter__`, every position of the enumerated
index list appears in at least one yielded batch — the contiguous slices at
successive start positions cover the whole list, and a batch with a non-empty
id list is always yielded. -/
theorem iter_batches_cover :
    ∀ (tuples : List (ℕ × ℕ × ℕ)) (idx : List ℕ) (σ : ℕ → ℕ),
      tuples ≠ [] → (∀ t ∈ tuples, 0 < t.2.2) →
      ∀ (pos : ℕ) (hp : pos < idx.length),
        ∃ b ∈ iter_batches tuples idx σ, ∃ x ∈ b, x.2.2 = idx[pos] := by
  intro tuples idx σ htup hpos pos hp
  exact cover_aux htup hpos idx.length 0 0 pos hp (by omega) (by omega)

/-- Witness for C8: index 30 of a concrete run is found in a batch. -/
theorem iter_batches_cover_witness :
    ([((2 : ℕ), (2 : ℕ), (2 : ℕ))] ≠ []) ∧
    (∀ t ∈ [((2 : ℕ), (2 : ℕ), (2 : ℕ))], 0 < t.2.2) ∧
    ((2 : ℕ) < ([(10 : ℕ), 20, 30] : List ℕ).length) ∧
    (∃ b ∈ iter_batches [(2, 2, 2)] [10, 20, 30] (fun _ => 0),
      ∃ x ∈ b, x.2.2 = ([(10 : ℕ), 20, 30] : List ℕ)[2]) :=
  ⟨by decide, by decide, by decide,
   iter_batches_cover [(2, 2, 2)] [10, 20, 30] (fun _ => 0) (by decide)
     (by decide) 2 (by decide)⟩

/-! ## C9 -/

/-- C9: the DP and DDP samplers implement the same algorithm: for the same
index list and choice sequence, `__iter__` yields the same batches, and on
equal states (`num_replicas` matching `n_gpus` under `to_dp`) `update_scales`
performs the same update of the crop bounds and `img_batch_tuples`. -/
theorem dp_ddp_same_algorithm :
    (∀ (tuples : List (ℕ × ℕ × ℕ)) (idx : List ℕ) (σ : ℕ → ℕ),
        iter_batches_ddp tuples idx σ = iter_batches tuples idx σ) ∧
    (∀ (s : SamplerDDP) (epoch : ℕ),
        to_dp (update_scales_ddp s epoch) = update_scales (to_dp s) epoch) := by
  constructor
  · exact iter_batches_ddp_eq
  · intro s epoch
    by_cases h : epoch ∈ s.scale_ep_intervals ∧ s.scale_inc = true
    · simp [update_scales, update_scales_ddp, to_dp, h]
    · simp [update_scales, update_scales_ddp, to_dp, h]
